import Mathlib

/-!
# Arkanoid simulation core (`creative.cpp`)

A shallow embedding of the per-frame simulation of `main` in `creative.cpp`
and of `AABBvsCircle`, with the properties of the simulation step.

Modelling conventions.
* `float` values are rationals with exact arithmetic (no rounding, no NaN).
* `int lives` is an unbounded integer.
* `rand()` is a stream: `Env.rand i` is the value returned by the `i`-th call,
  and the state carries the number of calls made so far.
* The `<cmath>` / glm functions `atan2`, `cos`, `sin`, `glm::length` and the
  texture handles obtained at start-up are fields of `Env`.
* `std::vector` is `List`; the loops of `main` are structural recursions.
-/

namespace Arkanoid

/-! ## Data model -/

/-- The type `glm::vec2`. -/
structure Vec2 where
  x : ℚ
  y : ℚ
  deriving DecidableEq, Repr

/-- The type `glm::vec4`, used for colours only. -/
structure Vec4 where
  r : ℚ
  g : ℚ
  b : ℚ
  a : ℚ
  deriving DecidableEq, Repr

/-- The record `struct Sprite`. -/
structure Sprite where
  pos : Vec2
  size : Vec2
  rotation : ℚ := 0
  tex : Nat := 0
  color : Vec4 := ⟨1, 1, 1, 1⟩
  transparent : Bool := false
  depth : ℚ := 0
  deriving DecidableEq, Repr

/-- The record `struct Brick`. -/
structure Brick where
  s : Sprite
  alive : Bool := true
  deriving DecidableEq, Repr

/-- The record `struct Ball`. -/
structure Ball where
  pos : Vec2
  vel : Vec2
  radius : ℚ
  tex : Nat
  deriving DecidableEq, Repr

/-- The record `struct Paddle`. -/
structure Paddle where
  pos : Vec2
  size : Vec2
  tex : Nat
  deriving DecidableEq, Repr

/-- The enumeration `enum PowerUpType`. -/
inductive PowerUpType where
  | MULTIBALL
  | EXTRALIFE
  deriving DecidableEq, Repr

/-- The record `struct PowerUp`. -/
structure PowerUp where
  pos : Vec2
  vel : Vec2
  size : Vec2
  type : PowerUpType
  active : Bool
  tex : Nat
  deriving DecidableEq, Repr

/-- The global `WINDOW_W` (line 393). -/
def WINDOW_W : ℚ := 800

/-- The global `WINDOW_H` (line 393). -/
def WINDOW_H : ℚ := 600

/-- What the simulation step reads from outside the game state: texture
handles created at start-up, the stream of `rand()` results and the
mathematical library functions. -/
structure Env where
  tex_ball : Nat
  tex_heart : Nat
  rand : Nat → Nat
  atan2 : ℚ → ℚ → ℚ
  cos : ℚ → ℚ
  sin : ℚ → ℚ
  length : Vec2 → ℚ

/-- The local variables of `main` that the simulation step reads and writes,
with the number of `rand()` calls made so far. -/
structure Game where
  paddle : Paddle
  balls : List Ball
  bricks : List Brick
  powerUps : List PowerUp
  lives : Int
  gameOver : Bool
  youWin : Bool
  randCalls : Nat

/-! ## Geometry -/

/-- The function `AABBvsCircle` (lines 212-223): the returned flag and the
value written to `outClosest`. -/
def AABBvsCircle (aPos aSize cPos : Vec2) (r : ℚ) : Bool × Vec2 :=
  let aMin := aPos
  let aMax : Vec2 := ⟨aPos.x + aSize.x, aPos.y + aSize.y⟩
  let cx := max aMin.x (min cPos.x aMax.x)
  let cy := max aMin.y (min cPos.y aMax.y)
  let dx := cx - cPos.x
  let dy := cy - cPos.y
  (decide (dx * dx + dy * dy ≤ r * r), ⟨cx, cy⟩)

/-- Paddle update (lines 524-526). -/
def updatePaddle (xpos : ℚ) (paddle : Paddle) : Paddle :=
  let p1 : Paddle := { paddle with pos := ⟨xpos - paddle.size.x / 2, paddle.pos.y⟩ }
  let p2 : Paddle := if p1.pos.x < 0 then { p1 with pos := ⟨0, p1.pos.y⟩ } else p1
  if p2.pos.x + p2.size.x > WINDOW_W then
    { p2 with pos := ⟨WINDOW_W - p2.size.x, p2.pos.y⟩ }
  else p2

/-- Body of the power-up motion loop (lines 528-534). -/
def movePowerUp (dt : ℚ) (pu : PowerUp) : PowerUp :=
  if !pu.active then pu
  else
    let pu1 : PowerUp := { pu with pos := ⟨pu.pos.x + pu.vel.x * dt, pu.pos.y + pu.vel.y * dt⟩ }
    if pu1.pos.y < -pu1.size.y then { pu1 with active := false } else pu1

/-- Ball integration (line 541). -/
def integrateBall (dt : ℚ) (ball : Ball) : Ball :=
  { ball with pos := ⟨ball.pos.x + ball.vel.x * dt, ball.pos.y + ball.vel.y * dt⟩ }

/-- Wall handling of one ball (lines 542-544). -/
def wallCollide (ball : Ball) : Ball :=
  let b1 : Ball :=
    if ball.pos.x - ball.radius < 0 then
      { ball with pos := ⟨ball.radius, ball.pos.y⟩, vel := ⟨ball.vel.x * -1, ball.vel.y⟩ }
    else ball
  let b2 : Ball :=
    if b1.pos.x + b1.radius > WINDOW_W then
      { b1 with pos := ⟨WINDOW_W - b1.radius, b1.pos.y⟩, vel := ⟨b1.vel.x * -1, b1.vel.y⟩ }
    else b1
  if b2.pos.y + b2.radius > WINDOW_H then
    { b2 with pos := ⟨b2.pos.x, WINDOW_H - b2.radius⟩, vel := ⟨b2.vel.x, b2.vel.y * -1⟩ }
  else b2

/-- The bottom-boundary test (lines 546 and 583). -/
def ballBelow (b : Ball) : Bool := decide (b.pos.y - b.radius < 0)

/-- Paddle collision of one ball (lines 551-556). -/
def paddleCollide (paddle : Paddle) (ball : Ball) : Ball :=
  if (AABBvsCircle paddle.pos paddle.size ball.pos ball.radius).1 then
    let b1 : Ball := { ball with vel := ⟨ball.vel.x, |ball.vel.y|⟩ }
    let hitNorm := (b1.pos.x - (paddle.pos.x + paddle.size.x * (1/2))) / (paddle.size.x * (1/2))
    { b1 with vel := ⟨b1.vel.x + hitNorm * 150, b1.vel.y⟩ }
  else ball

/-- Result of the brick scan of one ball. -/
structure ScanResult where
  ball : Ball
  bricks : List Brick
  powerUps : List PowerUp
  randCalls : Nat

/-- The power-up created on a brick destruction (lines 567-573); `t` is the
second `rand()` result. -/
def spawnPowerUp (env : Env) (b : Brick) (t : Nat) : PowerUp :=
  let ty := if t % 2 = 0 then PowerUpType.MULTIBALL else PowerUpType.EXTRALIFE
  { pos := ⟨b.s.pos.x + b.s.size.x * (1/2), b.s.pos.y⟩
    vel := ⟨0, -100⟩
    size := ⟨30, 30⟩
    type := ty
    active := true
    tex := if ty = PowerUpType.MULTIBALL then env.tex_ball else env.tex_heart }

/-- Velocity reflection on a brick hit (lines 562-564). -/
def brickBounce (ball : Ball) (closest : Vec2) : Ball :=
  let diff : Vec2 := ⟨ball.pos.x - closest.x, ball.pos.y - closest.y⟩
  if |diff.x| > |diff.y| then { ball with vel := ⟨ball.vel.x * -1, ball.vel.y⟩ }
  else { ball with vel := ⟨ball.vel.x, ball.vel.y * -1⟩ }

/-- Brick loop of one ball (lines 558-578): scans the bricks in storage
order, skips dead ones, and stops at the first overlap. -/
def brickScan (env : Env) (ball : Ball) (pus : List PowerUp) (n : Nat) :
    List Brick → ScanResult
  | [] => ⟨ball, [], pus, n⟩
  | b :: bs =>
    if !b.alive then
      let r := brickScan env ball pus n bs
      ⟨r.ball, b :: r.bricks, r.powerUps, r.randCalls⟩
    else
      let hit := AABBvsCircle b.s.pos b.s.size ball.pos ball.radius
      if hit.1 then
        let b1 : Brick := { b with alive := false }
        let ball1 := brickBounce ball hit.2
        if env.rand n % 100 < 30 then
          ⟨ball1, b1 :: bs, pus ++ [spawnPowerUp env b1 (env.rand (n + 1))], n + 2⟩
        else
          ⟨ball1, b1 :: bs, pus, n + 1⟩
      else
        let r := brickScan env ball pus n bs
        ⟨r.ball, b :: r.bricks, r.powerUps, r.randCalls⟩

/-- Result of the per-ball loop. -/
structure LoopResult where
  balls : List Ball
  bricks : List Brick
  powerUps : List PowerUp
  randCalls : Nat
  ballLost : Bool

/-- The per-ball loop (lines 539-579). The `break` of line 548 leaves the
loop over the balls: the balls after the lost one are not touched. -/
def ballLoop (env : Env) (dt : ℚ) (paddle : Paddle) :
    List Ball → List Brick → List PowerUp → Nat → LoopResult
  | [], bricks, pus, n => ⟨[], bricks, pus, n, false⟩
  | ball :: rest, bricks, pus, n =>
    let b1 := wallCollide (integrateBall dt ball)
    if ballBelow b1 then
      ⟨b1 :: rest, bricks, pus, n, true⟩
    else
      let b2 := paddleCollide paddle b1
      let sc := brickScan env b2 pus n bricks
      let r := ballLoop env dt paddle rest sc.bricks sc.powerUps sc.randCalls
      ⟨sc.ball :: r.balls, r.bricks, r.powerUps, r.randCalls, r.ballLost⟩

/-- The ball pushed after a lost life (lines 591-596). -/
def freshBall (env : Env) : Ball :=
  { radius := 10, pos := ⟨WINDOW_W / 2, 200⟩, vel := ⟨200, 200⟩, tex := env.tex_ball }

/-- Ball-loss resolution (lines 581-599) on balls, lives and gameOver. -/
def resolveLoss (env : Env) (ballLost : Bool) (balls : List Ball) (lives : Int)
    (gameOver : Bool) : List Ball × Int × Bool :=
  if ballLost then
    let balls1 := balls.filter (fun b => !ballBelow b)
    if balls1.isEmpty then
      let lives1 := lives - 1
      if lives1 ≤ 0 then (balls1, lives1, true)
      else (balls1 ++ [freshBall env], lives1, gameOver)
    else (balls1, lives, gameOver)
  else (balls, lives, gameOver)

/-- The angular offset of a MULTIBALL clone (line 615); `k` is the `rand()`
result. The subtraction is on `int`, before the conversion to `float`. -/
def angleOffset (k : Nat) : ℚ :=
  ((((k % 90 : Nat) : Int) - 45 : Int) : ℚ) * (314159 / 100000) / 180

/-- The value of `newAngle` (lines 614-616). -/
def multiballAngle (env : Env) (vel : Vec2) (k : Nat) : ℚ :=
  let baseAngle := env.atan2 vel.y vel.x
  baseAngle + angleOffset k

/-- The velocity given to a MULTIBALL clone (lines 614-620); `k` is the
`rand()` result. -/
def multiballVel (env : Env) (vel : Vec2) (k : Nat) : Vec2 :=
  let newAngle := multiballAngle env vel k
  let speed := env.length vel
  let vx := env.cos newAngle * speed
  let vy := env.sin newAngle * speed
  ⟨vx, if vy < 0 then -vy else vy⟩

/-- Body of the MULTIBALL loop (lines 612-621): the clone of one ball. -/
def cloneBall (env : Env) (existingBall : Ball) (k : Nat) : Ball :=
  { existingBall with vel := multiballVel env existingBall.vel k }

/-- The vector `newBalls` built by the MULTIBALL loop (lines 609-622); `n` is
the number of `rand()` calls made before the loop. -/
def multiballNew (env : Env) (balls : List Ball) (n : Nat) : List Ball :=
  let ballsToCreate := min 3 balls.length
  (List.range ballsToCreate).filterMap fun i =>
    (balls[i % balls.length]?).map fun existingBall => cloneBall env existingBall (env.rand (n + i))

/-- Collection of one MULTIBALL power-up (lines 608-624): the new ball
vector. -/
def collectMultiball (env : Env) (balls : List Ball) (n : Nat) : List Ball :=
  balls ++ multiballNew env balls n

/-- The box-box overlap test of the power-up with the paddle (lines 603-606). -/
def puOverlapsPaddle (paddle : Paddle) (pu : PowerUp) : Bool :=
  decide (pu.pos.x + pu.size.x > paddle.pos.x) &&
  decide (pu.pos.x < paddle.pos.x + paddle.size.x) &&
  decide (pu.pos.y + pu.size.y > paddle.pos.y) &&
  decide (pu.pos.y < paddle.pos.y + paddle.size.y)

/-- Result of the power-up collection loop. -/
structure CollectResult where
  powerUps : List PowerUp
  balls : List Ball
  lives : Int
  randCalls : Nat

/-- The power-up collection loop (lines 601-631). -/
def collectLoop (env : Env) (paddle : Paddle) :
    List PowerUp → List Ball → Int → Nat → CollectResult
  | [], balls, lives, n => ⟨[], balls, lives, n⟩
  | pu :: rest, balls, lives, n =>
    if !pu.active then
      let r := collectLoop env paddle rest balls lives n
      ⟨pu :: r.powerUps, r.balls, r.lives, r.randCalls⟩
    else if puOverlapsPaddle paddle pu then
      let pu1 : PowerUp := { pu with active := false }
      match pu.type with
      | PowerUpType.MULTIBALL =>
        let r := collectLoop env paddle rest (collectMultiball env balls n) lives
          (n + min 3 balls.length)
        ⟨pu1 :: r.powerUps, r.balls, r.lives, r.randCalls⟩
      | PowerUpType.EXTRALIFE =>
        let r := collectLoop env paddle rest balls (lives + 1) n
        ⟨pu1 :: r.powerUps, r.balls, r.lives, r.randCalls⟩
    else
      let r := collectLoop env paddle rest balls lives n
      ⟨pu :: r.powerUps, r.balls, r.lives, r.randCalls⟩

/-- The win check (lines 633-639): the value of `allDestroyed`. -/
def allDestroyed (bricks : List Brick) : Bool :=
  bricks.all fun b => !b.alive

/-- One simulation step (lines 521-643) with elapsed time `dt` and pointer
position `xpos`. -/
def step (env : Env) (dt xpos : ℚ) (g : Game) : Game :=
  if !g.gameOver && !g.youWin then
    let paddle := updatePaddle xpos g.paddle
    let pus1 := g.powerUps.map (movePowerUp dt)
    let pus2 := pus1.filter fun pu => pu.active
    let lp := ballLoop env dt paddle g.balls g.bricks pus2 g.randCalls
    let ls := resolveLoss env lp.ballLost lp.balls g.lives g.gameOver
    let cl := collectLoop env paddle lp.powerUps ls.1 ls.2.1 lp.randCalls
    { paddle := paddle
      balls := cl.balls
      bricks := lp.bricks
      powerUps := cl.powerUps
      lives := cl.lives
      gameOver := ls.2.2
      youWin := if allDestroyed lp.bricks then true else g.youWin
      randCalls := cl.randCalls }
  else g

/-- The simulation run on a list of frames, each an elapsed time `dt` and a
pointer position `xpos`: the body of the `while` loop of `main` (line 515)
applied once per frame. -/
def run (env : Env) : List (ℚ × ℚ) → Game → Game
  | [], g => g
  | (dt, xpos) :: rest, g => run env rest (step env dt xpos g)

/-! ## The step in the order of the specification -/

/-- The step as the specification orders its phases (section 4.2): power-up
collection (phase 5) on the balls left by the per-ball loop, and only then
ball-loss resolution (phase 6). Every phase is the one of `step`; only the
order of the last two differs. -/
def stepSpecOrder (env : Env) (dt xpos : ℚ) (g : Game) : Game :=
  if !g.gameOver && !g.youWin then
    let paddle := updatePaddle xpos g.paddle
    let pus1 := g.powerUps.map (movePowerUp dt)
    let pus2 := pus1.filter fun pu => pu.active
    let lp := ballLoop env dt paddle g.balls g.bricks pus2 g.randCalls
    let cl := collectLoop env paddle lp.powerUps lp.balls g.lives lp.randCalls
    let ls := resolveLoss env lp.ballLost cl.balls cl.lives g.gameOver
    { paddle := paddle
      balls := ls.1
      bricks := lp.bricks
      powerUps := cl.powerUps
      lives := ls.2.1
      gameOver := ls.2.2
      youWin := if allDestroyed lp.bricks then true else g.youWin
      randCalls := cl.randCalls }
  else g

/-! ## Predicates used in the statements -/

/-- The ball geometrically overlaps the brick's box. -/
def overlaps (ball : Ball) (b : Brick) : Bool :=
  (AABBvsCircle b.s.pos b.s.size ball.pos ball.radius).1

/-- Number of positions at which a brick is alive in the first grid and dead
in the second. -/
def killed : List Brick → List Brick → Nat
  | a :: as, b :: bs => (if a.alive && !b.alive then 1 else 0) + killed as bs
  | _, _ => 0

/-- What may happen to one brick: its sprite is kept and it is not revived. -/
def BrickKept (b b1 : Brick) : Prop :=
  b1.s = b.s ∧ (b.alive = false → b1.alive = false)

/-- The result of the per-ball loop inside a step. -/
def afterBallLoop (env : Env) (dt xpos : ℚ) (g : Game) : LoopResult :=
  ballLoop env dt (updatePaddle xpos g.paddle) g.balls g.bricks
    ((g.powerUps.map (movePowerUp dt)).filter fun pu => pu.active) g.randCalls

/-- The result of ball-loss resolution inside a step. -/
def afterLoss (env : Env) (dt xpos : ℚ) (g : Game) : List Ball × Int × Bool :=
  resolveLoss env (afterBallLoop env dt xpos g).ballLost (afterBallLoop env dt xpos g).balls
    g.lives g.gameOver

/-! ## Sample inputs -/

/-- A sample environment: every `rand()` call returns 45 (no power-up spawn,
angular offset 0), and the mathematical functions take the values they have
on a velocity along the positive x axis at angle 0: `atan2 0 x = 0`,
`cos 0 = 1`, `sin 0 = 0`, `length (x, 0) = |x|`. -/
def sampleEnv : Env :=
  { tex_ball := 3
    tex_heart := 4
    rand := fun _ => 45
    atan2 := fun _ _ => 0
    cos := fun _ => 1
    sin := fun _ => 0
    length := fun v => |v.x| }

/-- The paddle as created in `main` (lines 462-465). -/
def samplePaddle : Paddle := { pos := ⟨340, 50⟩, size := ⟨120, 20⟩, tex := 2 }

/-- A 1x1 grid whose single brick is alive, and one ball below it moving
straight up, which reaches the brick after `dt = 1/20`. -/
def lastBrickGame : Game :=
  { paddle := samplePaddle
    balls := [{ pos := ⟨50, 480⟩, vel := ⟨0, 200⟩, radius := 10, tex := 3 }]
    bricks := [{ s := { pos := ⟨0, 500⟩, size := ⟨100, 30⟩ }, alive := true }]
    powerUps := []
    lives := 5
    gameOver := false
    youWin := false
    randCalls := 0 }

/-- A finished game: the state of `lastBrickGame` with `gameOver` set. -/
def finishedGame : Game := { lastBrickGame with gameOver := true }

/-- A game on its last life: one ball just above the bottom moving down, and
an active EXTRALIFE power-up and an active MULTIBALL power-up on the paddle. -/
def lastLifeGame : Game :=
  { paddle := samplePaddle
    balls := [{ pos := ⟨400, 12⟩, vel := ⟨0, -200⟩, radius := 10, tex := 3 }]
    bricks := [{ s := { pos := ⟨0, 500⟩, size := ⟨100, 30⟩ }, alive := true }]
    powerUps :=
      [{ pos := ⟨390, 60⟩, vel := ⟨0, -100⟩, size := ⟨30, 30⟩,
         type := PowerUpType.EXTRALIFE, active := true, tex := 4 },
       { pos := ⟨400, 60⟩, vel := ⟨0, -100⟩, size := ⟨30, 30⟩,
         type := PowerUpType.MULTIBALL, active := true, tex := 3 }]
    lives := 1
    gameOver := false
    youWin := false
    randCalls := 0 }

/-- Two alive bricks that both overlap the ball at the end of the frame
(the boxes `[0,100] x [500,530]` and `[40,140] x [495,525]`, ball centre
`(50, 490)` with radius 10). -/
def twoBrickGame : Game :=
  { lastBrickGame with
    bricks := [{ s := { pos := ⟨0, 500⟩, size := ⟨100, 30⟩ }, alive := true },
               { s := { pos := ⟨40, 495⟩, size := ⟨100, 30⟩ }, alive := true }] }

/-- A ball at `(50, 490)` with radius 10 moving up. -/
def sampleBall : Ball := { pos := ⟨50, 490⟩, vel := ⟨0, 200⟩, radius := 10, tex := 3 }

/-- A dead brick whose box `[0,100] x [500,530]` overlaps `sampleBall`. -/
def deadBrick : Brick := { s := { pos := ⟨0, 500⟩, size := ⟨100, 30⟩ }, alive := false }

/-- A game on its last life: the only ball is about to cross the bottom, and
an active EXTRALIFE power-up falls onto the paddle in the same frame. -/
def extraLifeGame : Game :=
  { paddle := samplePaddle
    balls := [{ pos := ⟨400, 12⟩, vel := ⟨0, -200⟩, radius := 10, tex := 3 }]
    bricks := [{ s := { pos := ⟨0, 500⟩, size := ⟨100, 30⟩ }, alive := true }]
    powerUps :=
      [{ pos := ⟨390, 60⟩, vel := ⟨0, -100⟩, size := ⟨30, 30⟩,
         type := PowerUpType.EXTRALIFE, active := true, tex := 4 }]
    lives := 1
    gameOver := false
    youWin := false
    randCalls := 0 }

/-- A ball in the middle of the screen moving up and to the right. -/
def laterBall : Ball := { pos := ⟨200, 300⟩, vel := ⟨100, 100⟩, radius := 10, tex := 3 }

/-- Two balls: the first is about to cross the bottom, the second is
`laterBall`. -/
def twoBallGame : Game :=
  { paddle := samplePaddle
    balls := [{ pos := ⟨400, 12⟩, vel := ⟨0, -200⟩, radius := 10, tex := 3 }, laterBall]
    bricks := [{ s := { pos := ⟨0, 500⟩, size := ⟨100, 30⟩ }, alive := true }]
    powerUps := []
    lives := 5
    gameOver := false
    youWin := false
    randCalls := 0 }

/-- An environment in which every `rand()` call returns 7: the spawn roll
`7 % 100` is below 30 and the type roll `7 % 2` selects EXTRALIFE. -/
def spawnEnv : Env := { sampleEnv with rand := fun _ => 7 }

/-- An alive brick with box `[0,100] x [500,530]`, which `sampleBall`
overlaps. -/
def aliveBrick : Brick := { s := { pos := ⟨0, 500⟩, size := ⟨100, 30⟩ }, alive := true }

/-! ## Geometry: `AABBvsCircle` -/

/-- In a terminal state the step is the identity. -/
theorem step_terminal (env : Env) (dt xpos : ℚ) (g : Game)
    (h : g.gameOver = true ∨ g.youWin = true) : step env dt xpos g = g := by
  rcases h with h | h <;> simp [step, h]

/-- C2: the end flags are terminal. In every state in which `gameOver` or
`youWin` is true, for every `dt` and pointer X, one simulation step leaves the
paddle, the balls, the bricks, the power-ups, `lives`, `gameOver` and `youWin`
unchanged. -/
theorem step_terminal_frame (env : Env) (dt xpos : ℚ) (g : Game)
    (h : g.gameOver = true ∨ g.youWin = true) :
    (step env dt xpos g).paddle = g.paddle ∧
    (step env dt xpos g).balls = g.balls ∧
    (step env dt xpos g).bricks = g.bricks ∧
    (step env dt xpos g).powerUps = g.powerUps ∧
    (step env dt xpos g).lives = g.lives ∧
    (step env dt xpos g).gameOver = g.gameOver ∧
    (step env dt xpos g).youWin = g.youWin := by
  rw [step_terminal env dt xpos g h]
  exact ⟨rfl, rfl, rfl, rfl, rfl, rfl, rfl⟩

/-- Witness for C2: a step on `finishedGame`. -/
theorem step_terminal_frame_witness :
    (finishedGame.gameOver = true ∨ finishedGame.youWin = true) ∧
    (step sampleEnv (1/20) 400 finishedGame).paddle = finishedGame.paddle ∧
    (step sampleEnv (1/20) 400 finishedGame).balls = finishedGame.balls ∧
    (step sampleEnv (1/20) 400 finishedGame).bricks = finishedGame.bricks ∧
    (step sampleEnv (1/20) 400 finishedGame).powerUps = finishedGame.powerUps ∧
    (step sampleEnv (1/20) 400 finishedGame).lives = finishedGame.lives ∧
    (step sampleEnv (1/20) 400 finishedGame).gameOver = finishedGame.gameOver ∧
    (step sampleEnv (1/20) 400 finishedGame).youWin = finishedGame.youWin :=
  ⟨Or.inl rfl, step_terminal_frame sampleEnv (1/20) 400 finishedGame (Or.inl rfl)⟩

/-- The value of `allDestroyed` says that every brick is dead. -/
theorem allDestroyed_iff (bricks : List Brick) :
    allDestroyed bricks = true ↔ ∀ b ∈ bricks, b.alive = false := by
  simp [allDestroyed]

/-- C3: in a state with `gameOver` and `youWin` both false, after one step
`youWin` is true if and only if every brick of the grid is dead at the end of
that step. -/
theorem step_youWin_iff (env : Env) (dt xpos : ℚ) (g : Game)
    (hg : g.gameOver = false) (hw : g.youWin = false) :
    (step env dt xpos g).youWin = true ↔
      ∀ b ∈ (step env dt xpos g).bricks, b.alive = false := by
  rw [← allDestroyed_iff]
  simp only [step, hg, hw, Bool.not_false, Bool.and_self, if_true]
  by_cases h : allDestroyed (ballLoop env dt (updatePaddle xpos g.paddle) g.balls g.bricks
      (List.filter (fun pu => pu.active) (List.map (movePowerUp dt) g.powerUps)) g.randCalls).bricks
        = true
  · simp [h]
  · simp [h]

/-- Witness for C3: in `lastBrickGame` the single brick is alive, the ball
reaches it during the step, and `youWin` is true at the end of that step. -/
theorem step_youWin_iff_witness :
    lastBrickGame.gameOver = false ∧ lastBrickGame.youWin = false ∧
    (∃ b ∈ lastBrickGame.bricks, b.alive = true) ∧
    (step sampleEnv (1/20) 400 lastBrickGame).youWin = true :=
  ⟨rfl, rfl, ⟨_, List.mem_singleton.mpr rfl, rfl⟩,
   (step_youWin_iff sampleEnv (1/20) 400 lastBrickGame rfl rfl).mpr (by
      simp [step, lastBrickGame, ballLoop, brickScan, integrateBall, wallCollide, ballBelow,
        paddleCollide, AABBvsCircle, updatePaddle, samplePaddle, sampleEnv, WINDOW_W, WINDOW_H]
      norm_num)⟩

/-- With no ball in the collection, power-up collection creates none. -/
theorem collectLoop_nil_balls (env : Env) (paddle : Paddle) (pus : List PowerUp) :
    ∀ (lives : Int) (n : Nat), (collectLoop env paddle pus [] lives n).balls = [] := by
  induction pus with
  | nil => intro lives n; rfl
  | cons pu rest ih =>
    intro lives n
    unfold collectLoop
    by_cases ha : pu.active = true
    · by_cases ho : puOverlapsPaddle paddle pu = true
      · cases ht : pu.type
        · simpa [ha, ho, ht, collectMultiball, multiballNew] using ih lives n
        · simpa [ha, ho, ht] using ih (lives + 1) n
      · simpa [ha, ho] using ih lives n
    · simpa [ha] using ih lives n

/-- C4: in a non-terminal state with `lives = 1` and exactly one ball whose
position after integration and wall handling satisfies `y - radius < 0`,
whatever power-ups are present, the state after one step has
`gameOver = true` and an empty ball collection. -/
theorem step_last_life_lost (env : Env) (dt xpos : ℚ) (g : Game) (b : Ball)
    (hg : g.gameOver = false) (hw : g.youWin = false) (hl : g.lives = 1)
    (hb : g.balls = [b])
    (hlost : (wallCollide (integrateBall dt b)).pos.y
        - (wallCollide (integrateBall dt b)).radius < 0) :
    (step env dt xpos g).gameOver = true ∧ (step env dt xpos g).balls = [] := by
  have hbelow : ballBelow (wallCollide (integrateBall dt b)) = true := by
    simpa [ballBelow] using hlost
  simp [step, hg, hw, hl, hb, ballLoop, hbelow, resolveLoss, collectLoop_nil_balls]

/-- Witness for C4: `lastLifeGame`, whose only ball ends the frame at
`y = 2` with radius 10 while two power-ups lie on the paddle. -/
theorem step_last_life_lost_witness :
    (step sampleEnv (1/20) 400 lastLifeGame).gameOver = true ∧
    (step sampleEnv (1/20) 400 lastLifeGame).balls = [] :=
  step_last_life_lost sampleEnv (1/20) 400 lastLifeGame
    { pos := ⟨400, 12⟩, vel := ⟨0, -200⟩, radius := 10, tex := 3 } rfl rfl rfl rfl
    (by simp [integrateBall, wallCollide, WINDOW_W, WINDOW_H]; norm_num)

/-! ## MULTIBALL -/

/-- The clones are made from the first balls of the collection, in order,
one `rand()` draw each. -/
theorem multiballNew_eq (env : Env) (n : Nat) (balls : List Ball) :
    multiballNew env balls n =
      (List.range (min 3 balls.length)).filterMap fun i =>
        (balls[i]?).map fun eb => cloneBall env eb (env.rand (n + i)) := by
  unfold multiballNew
  apply List.filterMap_congr
  intro i hi
  have hlt : i < balls.length := lt_of_lt_of_le (List.mem_range.mp hi) (min_le_right _ _)
  rw [Nat.mod_eq_of_lt hlt]

/-- Length and entries of the vector of clones. -/
theorem multiballNew_getElem (env : Env) (n : Nat) (balls : List Ball) :
    (multiballNew env balls n).length = min 3 balls.length ∧
    ∀ i, i < min 3 balls.length →
      (multiballNew env balls n)[i]? =
        (balls[i]?).map fun eb => cloneBall env eb (env.rand (n + i)) := by
  rw [multiballNew_eq]
  match balls with
  | [] => simp
  | [a] =>
    refine ⟨by simp [List.range_succ], ?_⟩
    intro i hi
    have : i = 0 := by simp at hi; omega
    subst this
    simp [List.range_succ]
  | [a, b] =>
    refine ⟨by simp [List.range_succ], ?_⟩
    intro i hi
    simp at hi
    interval_cases i <;> simp [List.range_succ]
  | a :: b :: c :: rest =>
    refine ⟨by simp [List.range_succ], ?_⟩
    intro i hi
    simp at hi
    interval_cases i <;> simp [List.range_succ]



/-- Collecting a single MULTIBALL power-up appends the clones. -/
theorem collectLoop_single_multiball (env : Env) (paddle : Paddle) (pu : PowerUp)
    (balls : List Ball) (lives : Int) (n : Nat)
    (ha : pu.active = true) (ho : puOverlapsPaddle paddle pu = true)
    (ht : pu.type = PowerUpType.MULTIBALL) :
    (collectLoop env paddle [pu] balls lives n).balls = balls ++ multiballNew env balls n := by
  unfold collectLoop
  simp [ha, ho, ht, collectLoop, collectMultiball]

/-- C5: collecting one MULTIBALL power-up when the collection holds `N` balls
appends exactly `min 3 N` new balls at the end, leaves the `N` existing balls
unchanged and in the same order, and the `i`-th new ball copies the position,
radius and texture of the `i`-th existing ball. -/
theorem collect_multiball_appends (env : Env) (paddle : Paddle) (pu : PowerUp)
    (balls : List Ball) (lives : Int) (n : Nat)
    (ha : pu.active = true) (ho : puOverlapsPaddle paddle pu = true)
    (ht : pu.type = PowerUpType.MULTIBALL) :
    (collectLoop env paddle [pu] balls lives n).balls.length
        = balls.length + min 3 balls.length ∧
    (collectLoop env paddle [pu] balls lives n).balls.take balls.length = balls ∧
    ∀ i, i < min 3 balls.length → ∃ eb nb,
      balls[i]? = some eb ∧
      (collectLoop env paddle [pu] balls lives n).balls[balls.length + i]? = some nb ∧
      nb.pos = eb.pos ∧ nb.radius = eb.radius ∧ nb.tex = eb.tex := by
  rw [collectLoop_single_multiball env paddle pu balls lives n ha ho ht]
  obtain ⟨hlen, hget⟩ := multiballNew_getElem env n balls
  refine ⟨by rw [List.length_append, hlen], by simp, ?_⟩
  intro i hi
  have hlt : i < balls.length := lt_of_lt_of_le hi (min_le_right _ _)
  refine ⟨balls[i], cloneBall env balls[i] (env.rand (n + i)), List.getElem?_eq_getElem hlt,
    ?_, rfl, rfl, rfl⟩
  rw [List.getElem?_append_right (Nat.le_add_right _ _), Nat.add_sub_cancel_left, hget i hi,
    List.getElem?_eq_getElem hlt]
  rfl

/-- Witness for C5: the MULTIBALL power-up lying on the sample paddle,
collected with two balls in play. -/
theorem collect_multiball_appends_witness :
    (collectLoop sampleEnv samplePaddle
        [{ pos := ⟨400, 55⟩, vel := ⟨0, -100⟩, size := ⟨30, 30⟩,
           type := PowerUpType.MULTIBALL, active := true, tex := 3 }]
        [⟨⟨100, 300⟩, ⟨200, 0⟩, 10, 3⟩, ⟨⟨200, 300⟩, ⟨150, 0⟩, 10, 3⟩] 5 0).balls.length
      = 2 + min 3 2 :=
  (collect_multiball_appends sampleEnv samplePaddle
    { pos := ⟨400, 55⟩, vel := ⟨0, -100⟩, size := ⟨30, 30⟩,
      type := PowerUpType.MULTIBALL, active := true, tex := 3 }
    [⟨⟨100, 300⟩, ⟨200, 0⟩, 10, 3⟩, ⟨⟨200, 300⟩, ⟨150, 0⟩, 10, 3⟩] 5 0 rfl
    (by simp [puOverlapsPaddle, samplePaddle]; norm_num) rfl).1

/-- A brick left alone is kept. -/
theorem BrickKept.refl (b : Brick) : BrickKept b b := ⟨rfl, id⟩

/-- Keeping composes. -/
theorem BrickKept.trans {a b c : Brick} (h1 : BrickKept a b) (h2 : BrickKept b c) :
    BrickKept a c :=
  ⟨h2.1.trans h1.1, fun h => h2.2 (h1.2 h)⟩

/-- An untouched grid is kept. -/
theorem bricksKept_refl (l : List Brick) : List.Forall₂ BrickKept l l :=
  List.forall₂_same.mpr fun b _ => BrickKept.refl b

/-- Keeping a grid composes. -/
theorem bricksKept_trans : ∀ {l1 l2 l3 : List Brick},
    List.Forall₂ BrickKept l1 l2 → List.Forall₂ BrickKept l2 l3 → List.Forall₂ BrickKept l1 l3
  | _, _, _, List.Forall₂.nil, List.Forall₂.nil => List.Forall₂.nil
  | _, _, _, List.Forall₂.cons h1 t1, List.Forall₂.cons h2 t2 =>
    List.Forall₂.cons (h1.trans h2) (bricksKept_trans t1 t2)

/-- A kept grid is kept position by position. -/
theorem bricksKept_getElem_opt : ∀ {l1 l2 : List Brick}, List.Forall₂ BrickKept l1 l2 →
    ∀ (i : Nat) (b b1 : Brick), l1[i]? = some b → l2[i]? = some b1 → BrickKept b b1
  | _, _, List.Forall₂.nil, i, b, b1, h, _ => by simp at h
  | _, _, List.Forall₂.cons h1 t1, 0, b, b1, h, h2 => by
    simp at h h2
    subst h; subst h2
    exact h1
  | _, _, List.Forall₂.cons _ t1, i + 1, b, b1, h, h2 => by
    simp at h h2
    exact bricksKept_getElem_opt t1 i b b1 h h2

/-- The brick scan of one ball keeps every sprite and revives no brick. -/
theorem brickScan_kept (env : Env) (ball : Ball) (pus : List PowerUp) (n : Nat) :
    ∀ bricks : List Brick, List.Forall₂ BrickKept bricks (brickScan env ball pus n bricks).bricks := by
  intro bricks
  induction bricks with
  | nil => exact List.Forall₂.nil
  | cons b bs ih =>
    unfold brickScan
    by_cases ha : b.alive = true
    · by_cases hh : (AABBvsCircle b.s.pos b.s.size ball.pos ball.radius).1 = true
      · by_cases hr : env.rand n % 100 < 30
        · simp only [ha, hh, hr, Bool.not_true, Bool.false_eq_true, if_false, if_true]
          exact List.Forall₂.cons ⟨rfl, fun _ => rfl⟩ (bricksKept_refl bs)
        · simp only [ha, hh, hr, Bool.not_true, Bool.false_eq_true, if_false, if_true]
          exact List.Forall₂.cons ⟨rfl, fun _ => rfl⟩ (bricksKept_refl bs)
      · simp only [ha, hh, Bool.not_true, Bool.false_eq_true, if_false]
        exact List.Forall₂.cons (BrickKept.refl b) ih
    · have ha1 : b.alive = false := by simpa using ha
      simp only [ha1, Bool.not_false, if_true]
      exact List.Forall₂.cons (BrickKept.refl b) ih

/-- The per-ball loop keeps every sprite and revives no brick. -/
theorem ballLoop_kept (env : Env) (dt : ℚ) (paddle : Paddle) :
    ∀ (balls : List Ball) (bricks : List Brick) (pus : List PowerUp) (n : Nat),
      List.Forall₂ BrickKept bricks (ballLoop env dt paddle balls bricks pus n).bricks := by
  intro balls
  induction balls with
  | nil => intro bricks pus n; exact bricksKept_refl bricks
  | cons ball rest ih =>
    intro bricks pus n
    unfold ballLoop
    by_cases hb : ballBelow (wallCollide (integrateBall dt ball)) = true
    · simp only [hb, if_true]
      exact bricksKept_refl bricks
    · simp only [hb, Bool.false_eq_true, if_false]
      exact bricksKept_trans (brickScan_kept env _ pus n bricks) (ih _ _ _)

/-- The bricks after a step are those of the per-ball loop, or the old ones. -/
theorem step_bricks_kept (env : Env) (dt xpos : ℚ) (g : Game) :
    List.Forall₂ BrickKept g.bricks (step env dt xpos g).bricks := by
  unfold step
  split_ifs
  · exact ballLoop_kept env dt _ _ _ _ _
  · exact bricksKept_refl _

/-- When every brick overlapping the ball is dead, the scan changes nothing. -/
theorem brickScan_no_hit (env : Env) (ball : Ball) (pus : List PowerUp) (n : Nat) :
    ∀ bricks : List Brick, (∀ b ∈ bricks, overlaps ball b = true → b.alive = false) →
      brickScan env ball pus n bricks = ⟨ball, bricks, pus, n⟩ := by
  intro bricks
  induction bricks with
  | nil => intro _; rfl
  | cons b bs ih =>
    intro h
    have ih1 := ih fun b1 hb1 => h b1 (List.mem_cons_of_mem _ hb1)
    unfold brickScan
    by_cases ha : b.alive = true
    · have hh : (AABBvsCircle b.s.pos b.s.size ball.pos ball.radius).1 = false := by
        by_contra hc
        have := h b (List.mem_cons_self _ _) (by simpa [overlaps] using hc)
        rw [ha] at this
        exact Bool.noConfusion this
      simp only [ha, hh, Bool.not_true, Bool.false_eq_true, if_false, ih1]
    · have ha1 : b.alive = false := by simpa using ha
      simp only [ha1, Bool.not_false, if_true, ih1]

/-- Dead bricks are invisible to the scan: the ball, the power-ups and the
number of `rand()` calls it returns are those of the scan of the alive bricks
alone. -/
theorem brickScan_filter_alive (env : Env) (ball : Ball) (pus : List PowerUp) (n : Nat) :
    ∀ bricks : List Brick,
      (brickScan env ball pus n bricks).ball
        = (brickScan env ball pus n (bricks.filter fun b => b.alive)).ball ∧
      (brickScan env ball pus n bricks).powerUps
        = (brickScan env ball pus n (bricks.filter fun b => b.alive)).powerUps ∧
      (brickScan env ball pus n bricks).randCalls
        = (brickScan env ball pus n (bricks.filter fun b => b.alive)).randCalls := by
  intro bricks
  induction bricks with
  | nil => exact ⟨rfl, rfl, rfl⟩
  | cons b bs ih =>
    by_cases ha : b.alive = true
    · rw [List.filter_cons_of_pos ha]
      unfold brickScan
      by_cases hh : (AABBvsCircle b.s.pos b.s.size ball.pos ball.radius).1 = true
      · by_cases hr : env.rand n % 100 < 30
        · simp only [ha, hh, hr, Bool.not_true, Bool.false_eq_true, if_false, if_true,
            and_self]
        · simp only [ha, hh, hr, Bool.not_true, Bool.false_eq_true, if_false, if_true,
            and_self]
      · simp only [ha, hh, Bool.not_true, Bool.false_eq_true, if_false]
        exact ih
    · have ha1 : b.alive = false := by simpa using ha
      rw [List.filter_cons_of_neg (by simpa using ha1)]
      rw [brickScan]
      simp only [ha1, Bool.not_false, if_true]
      exact ih

/-- The scan kills the first alive brick that overlaps the ball, and no
other. -/
theorem brickScan_first_alive (env : Env) (ball : Ball) (pus : List PowerUp) (n : Nat) :
    ∀ bricks : List Brick,
      ((∀ b ∈ bricks, ¬ (b.alive = true ∧ overlaps ball b = true)) ∧
        (brickScan env ball pus n bricks).bricks = bricks) ∨
      (∃ pre b post, bricks = pre ++ b :: post ∧
        (∀ b1 ∈ pre, ¬ (b1.alive = true ∧ overlaps ball b1 = true)) ∧
        b.alive = true ∧ overlaps ball b = true ∧
        (brickScan env ball pus n bricks).bricks = pre ++ { b with alive := false } :: post) := by
  intro bricks
  induction bricks with
  | nil => exact Or.inl ⟨fun _ h => absurd h (List.not_mem_nil _), rfl⟩
  | cons b bs ih =>
    by_cases hk : b.alive = true ∧ overlaps ball b = true
    · refine Or.inr ⟨[], b, bs, rfl, fun _ h => absurd h (List.not_mem_nil _), hk.1, hk.2, ?_⟩
      have hh : (AABBvsCircle b.s.pos b.s.size ball.pos ball.radius).1 = true := hk.2
      unfold brickScan
      by_cases hr : env.rand n % 100 < 30
      · simp only [hk.1, hh, hr, Bool.not_true, Bool.false_eq_true, if_false, if_true,
          List.nil_append]
      · simp only [hk.1, hh, hr, Bool.not_true, Bool.false_eq_true, if_false, if_true,
          List.nil_append]
    · have hstep : (brickScan env ball pus n (b :: bs)).bricks
          = b :: (brickScan env ball pus n bs).bricks := by
        rw [brickScan]
        by_cases ha : b.alive = true
        · have hh : (AABBvsCircle b.s.pos b.s.size ball.pos ball.radius).1 = false := by
            by_contra hc
            exact hk ⟨ha, by simpa [overlaps] using hc⟩
          simp only [ha, hh, Bool.not_true, Bool.false_eq_true, if_false]
        · have ha1 : b.alive = false := by simpa using ha
          simp only [ha1, Bool.not_false, if_true]
      rcases ih with ⟨hnone, heq⟩ | ⟨pre, c, post, hsplit, hpre, hca, hco, heq⟩
      · refine Or.inl ⟨?_, by rw [hstep, heq]⟩
        intro b1 hb1
        rcases List.mem_cons.mp hb1 with h | h
        · rw [h]; exact hk
        · exact hnone b1 h
      · refine Or.inr ⟨b :: pre, c, post, by rw [hsplit]; rfl, ?_, hca, hco, by
          rw [hstep, heq]; rfl⟩
        intro b1 hb1
        rcases List.mem_cons.mp hb1 with h | h
        · rw [h]; exact hk
        · exact hpre b1 h

/-- Nothing is killed between a grid and itself. -/
theorem killed_self (l : List Brick) : killed l l = 0 := by
  induction l with
  | nil => rfl
  | cons b bs ih => cases hb : b.alive <;> simp [killed, hb, ih]

/-- Kills over two stages bound the kills overall. -/
theorem killed_trans : ∀ (l1 l2 l3 : List Brick), l1.length = l2.length →
    killed l1 l3 ≤ killed l1 l2 + killed l2 l3
  | [], _, _, _ => by simp [killed]
  | _ :: _, [], _, h => by simp at h
  | _ :: _, _ :: _, [], _ => by simp [killed]
  | a :: l1, b :: l2, c :: l3, h => by
    have ih := killed_trans l1 l2 l3 (by simpa using h)
    simp only [killed]
    cases a.alive <;> cases b.alive <;> cases c.alive <;> simp <;> omega

/-- One scan kills at most one brick. -/
theorem brickScan_killed_le_one (env : Env) (ball : Ball) (pus : List PowerUp) (n : Nat) :
    ∀ bricks : List Brick, killed bricks (brickScan env ball pus n bricks).bricks ≤ 1 := by
  intro bricks
  rcases brickScan_first_alive env ball pus n bricks with
    ⟨-, heq⟩ | ⟨pre, c, post, hsplit, -, hca, -, heq⟩
  · rw [heq, killed_self]; exact Nat.zero_le _
  · rw [heq, hsplit]
    clear heq hsplit
    induction pre with
    | nil => simp [killed, hca, killed_self]
    | cons p ps ih =>
      simp only [List.cons_append, killed]
      cases p.alive <;> simpa using ih

/-- The per-ball loop kills at most one brick per ball. -/
theorem ballLoop_killed_le (env : Env) (dt : ℚ) (paddle : Paddle) :
    ∀ (balls : List Ball) (bricks : List Brick) (pus : List PowerUp) (n : Nat),
      killed bricks (ballLoop env dt paddle balls bricks pus n).bricks ≤ balls.length := by
  intro balls
  induction balls with
  | nil => intro bricks pus n; simp [ballLoop, killed_self]
  | cons ball rest ih =>
    intro bricks pus n
    unfold ballLoop
    by_cases hb : ballBelow (wallCollide (integrateBall dt ball)) = true
    · simp only [hb, if_true, killed_self]
      exact Nat.zero_le _
    · simp only [hb, Bool.false_eq_true, if_false, List.length_cons]
      have h1 := brickScan_killed_le_one env
        (paddleCollide paddle (wallCollide (integrateBall dt ball))) pus n bricks
      have h2 := ih (brickScan env
        (paddleCollide paddle (wallCollide (integrateBall dt ball))) pus n bricks).bricks
        (brickScan env
        (paddleCollide paddle (wallCollide (integrateBall dt ball))) pus n bricks).powerUps
        (brickScan env
        (paddleCollide paddle (wallCollide (integrateBall dt ball))) pus n bricks).randCalls
      have h3 := killed_trans bricks _ (ballLoop env dt paddle rest
        (brickScan env
        (paddleCollide paddle (wallCollide (integrateBall dt ball))) pus n bricks).bricks
        (brickScan env
        (paddleCollide paddle (wallCollide (integrateBall dt ball))) pus n bricks).powerUps
        (brickScan env
        (paddleCollide paddle (wallCollide (integrateBall dt ball))) pus n bricks).randCalls).bricks
        (brickScan_kept env (paddleCollide paddle (wallCollide (integrateBall dt ball)))
          pus n bricks).length_eq
      omega

/-- A step kills at most one brick per ball. -/
theorem step_killed_le (env : Env) (dt xpos : ℚ) (g : Game) :
    killed g.bricks (step env dt xpos g).bricks ≤ g.balls.length := by
  unfold step
  split_ifs
  · exact ballLoop_killed_le env dt _ _ _ _ _
  · rw [killed_self]; exact Nat.zero_le _

/-- C7: at most one brick is destroyed per ball per frame. The brick scan of
a ball changes the alive flag of at most one brick, namely the first alive
brick in storage order that overlaps the ball, whatever else overlaps it; so
the grid keeps its length and the number of bricks that go from alive to dead
in one step is at most the number of balls at the start of the step. -/
theorem one_brick_per_ball (env : Env) (dt xpos : ℚ) (g : Game) :
    (∀ (ball : Ball) (pus : List PowerUp) (n : Nat) (bricks : List Brick),
      ((∀ b ∈ bricks, ¬ (b.alive = true ∧ overlaps ball b = true)) ∧
        (brickScan env ball pus n bricks).bricks = bricks) ∨
      (∃ pre b post, bricks = pre ++ b :: post ∧
        (∀ b1 ∈ pre, ¬ (b1.alive = true ∧ overlaps ball b1 = true)) ∧
        b.alive = true ∧ overlaps ball b = true ∧
        (brickScan env ball pus n bricks).bricks
          = pre ++ { b with alive := false } :: post)) ∧
    (step env dt xpos g).bricks.length = g.bricks.length ∧
    killed g.bricks (step env dt xpos g).bricks ≤ g.balls.length :=
  ⟨fun ball pus n bricks => brickScan_first_alive env ball pus n bricks,
   (step_bricks_kept env dt xpos g).length_eq.symm,
   step_killed_le env dt xpos g⟩

/-- Witness for C7: in `twoBrickGame` the ball overlaps both alive bricks at
the end of the frame, and the step kills the first one only. -/
theorem one_brick_per_ball_witness :
    overlaps sampleBall { s := { pos := ⟨0, 500⟩, size := ⟨100, 30⟩ }, alive := true } = true ∧
    overlaps sampleBall { s := { pos := ⟨40, 495⟩, size := ⟨100, 30⟩ }, alive := true } = true ∧
    (step sampleEnv (1/20) 400 twoBrickGame).bricks =
      [{ s := { pos := ⟨0, 500⟩, size := ⟨100, 30⟩ }, alive := false },
       { s := { pos := ⟨40, 495⟩, size := ⟨100, 30⟩ }, alive := true }] ∧
    killed twoBrickGame.bricks (step sampleEnv (1/20) 400 twoBrickGame).bricks ≤ 1 :=
  ⟨by simp [overlaps, AABBvsCircle, sampleBall]; norm_num,
   by simp [overlaps, AABBvsCircle, sampleBall]; norm_num,
   by simp [step, twoBrickGame, lastBrickGame, ballLoop, brickScan, integrateBall,
        wallCollide, ballBelow, paddleCollide, AABBvsCircle, updatePaddle, samplePaddle,
        sampleEnv, WINDOW_W, WINDOW_H]
      norm_num,
   (one_brick_per_ball sampleEnv (1/20) 400 twoBrickGame).2.2⟩

/-- C8: brick destruction is one-way and idempotent. A step keeps the length
of the grid and the position and size of each brick, a brick dead before the
step is dead after it, and dead bricks take no part in the scan: when every
brick overlapping the ball is dead the scan leaves the ball (its velocity
included) unchanged, spawns no power-up and draws no random number, and in
general the ball, power-ups and draws of a scan are those of the scan of the
alive bricks alone. -/
theorem brick_destruction_one_way (env : Env) (dt xpos : ℚ) (g : Game) :
    (step env dt xpos g).bricks.length = g.bricks.length ∧
    (∀ (i : Nat) (b b1 : Brick), g.bricks[i]? = some b →
      (step env dt xpos g).bricks[i]? = some b1 →
      b1.s.pos = b.s.pos ∧ b1.s.size = b.s.size ∧ (b.alive = false → b1.alive = false)) ∧
    (∀ (ball : Ball) (pus : List PowerUp) (n : Nat) (bricks : List Brick),
      (∀ b ∈ bricks, overlaps ball b = true → b.alive = false) →
      (brickScan env ball pus n bricks).ball = ball ∧
      (brickScan env ball pus n bricks).powerUps = pus ∧
      (brickScan env ball pus n bricks).randCalls = n ∧
      (brickScan env ball pus n bricks).bricks = bricks) ∧
    (∀ (ball : Ball) (pus : List PowerUp) (n : Nat) (bricks : List Brick),
      (brickScan env ball pus n bricks).ball
        = (brickScan env ball pus n (bricks.filter fun b => b.alive)).ball ∧
      (brickScan env ball pus n bricks).powerUps
        = (brickScan env ball pus n (bricks.filter fun b => b.alive)).powerUps ∧
      (brickScan env ball pus n bricks).randCalls
        = (brickScan env ball pus n (bricks.filter fun b => b.alive)).randCalls) := by
  refine ⟨(step_bricks_kept env dt xpos g).length_eq.symm, ?_, ?_, ?_⟩
  · intro i b b1 h h1
    have hk := bricksKept_getElem_opt (step_bricks_kept env dt xpos g) i b b1 h h1
    exact ⟨by rw [hk.1], by rw [hk.1], hk.2⟩
  · intro ball pus n bricks h
    rw [brickScan_no_hit env ball pus n bricks h]
    exact ⟨rfl, rfl, rfl, rfl⟩
  · intro ball pus n bricks
    exact brickScan_filter_alive env ball pus n bricks

/-- Witness for C8: `sampleBall` geometrically overlaps `deadBrick`, and the
scan leaves its velocity unchanged and spawns nothing. -/
theorem brick_destruction_one_way_witness :
    overlaps sampleBall deadBrick = true ∧
    (brickScan sampleEnv sampleBall [] 0 [deadBrick]).ball.vel = ⟨0, 200⟩ ∧
    (brickScan sampleEnv sampleBall [] 0 [deadBrick]).powerUps = [] :=
  have h := (brick_destruction_one_way sampleEnv (1/20) 400 lastBrickGame).2.2.1
    sampleBall [] 0 [deadBrick] (fun b hb _ => by rw [List.mem_singleton.mp hb]; rfl)
  ⟨by simp [overlaps, AABBvsCircle, sampleBall, deadBrick]; norm_num,
   by rw [h.1]; rfl, h.2.1⟩

/-! ## Walls and paddle -/

/-- C9: for a ball with `2 * radius ≤ WINDOW_W`, after integration and wall
handling its position satisfies `radius ≤ x ≤ WINDOW_W - radius` and
`y ≤ WINDOW_H - radius`; and when the integrated position has
`x - radius < 0` the ball ends at `x = radius` with `vx` negated. -/
theorem wallCollide_bounds (dt : ℚ) (ball : Ball) (h : 2 * ball.radius ≤ WINDOW_W) :
    (wallCollide (integrateBall dt ball)).radius = ball.radius ∧
    ball.radius ≤ (wallCollide (integrateBall dt ball)).pos.x ∧
    (wallCollide (integrateBall dt ball)).pos.x ≤ WINDOW_W - ball.radius ∧
    (wallCollide (integrateBall dt ball)).pos.y ≤ WINDOW_H - ball.radius ∧
    ((integrateBall dt ball).pos.x - ball.radius < 0 →
      (wallCollide (integrateBall dt ball)).pos.x = ball.radius ∧
      (wallCollide (integrateBall dt ball)).vel.x = -ball.vel.x) := by
  simp only [wallCollide, integrateBall]
  split_ifs <;> simp_all <;> (try constructor) <;> linarith

/-- Witness for C9: a ball of radius 10 moving left whose integrated position
is `x = -2` ends at `x = 10` with `vx` flipped from -200 to 200. -/
theorem wallCollide_bounds_witness :
    2 * (10 : ℚ) ≤ WINDOW_W ∧
    (integrateBall (1/100) ⟨⟨0, 300⟩, ⟨-200, 0⟩, 10, 3⟩).pos.x = -2 ∧
    (wallCollide (integrateBall (1/100) ⟨⟨0, 300⟩, ⟨-200, 0⟩, 10, 3⟩)).pos.x = 10 ∧
    (wallCollide (integrateBall (1/100) ⟨⟨0, 300⟩, ⟨-200, 0⟩, 10, 3⟩)).vel.x = 200 :=
  have h := wallCollide_bounds (1/100) ⟨⟨0, 300⟩, ⟨-200, 0⟩, 10, 3⟩ (by norm_num [WINDOW_W])
  have hx : (integrateBall (1/100) ⟨⟨0, 300⟩, ⟨-200, 0⟩, 10, 3⟩).pos.x = -2 := by
    norm_num [integrateBall]
  ⟨by norm_num [WINDOW_W], hx,
   (h.2.2.2.2 (by rw [hx]; norm_num)).1,
   by rw [(h.2.2.2.2 (by rw [hx]; norm_num)).2]; norm_num⟩

/-- The paddle update by cases on the requested left edge. -/
theorem updatePaddle_cases (xpos : ℚ) (paddle : Paddle) (h : paddle.size.x ≤ WINDOW_W) :
    (updatePaddle xpos paddle).size = paddle.size ∧
    (updatePaddle xpos paddle).pos.y = paddle.pos.y ∧
    (xpos - paddle.size.x / 2 < 0 → (updatePaddle xpos paddle).pos.x = 0) ∧
    (WINDOW_W - paddle.size.x < xpos - paddle.size.x / 2 →
      (updatePaddle xpos paddle).pos.x = WINDOW_W - paddle.size.x) ∧
    (0 ≤ xpos - paddle.size.x / 2 → xpos - paddle.size.x / 2 ≤ WINDOW_W - paddle.size.x →
      (updatePaddle xpos paddle).pos.x = xpos - paddle.size.x / 2) := by
  by_cases h1 : xpos - paddle.size.x / 2 < 0
  · have h2 : ¬ ((0 : ℚ) + paddle.size.x > WINDOW_W) := by
      simp only [zero_add, gt_iff_lt, not_lt]; exact h
    have e : updatePaddle xpos paddle = { paddle with pos := ⟨0, paddle.pos.y⟩ } := by
      simp only [updatePaddle, h1, if_true, h2, if_false]
    rw [e]
    refine ⟨rfl, rfl, fun _ => rfl, fun h3 => ?_, fun h3 _ => ?_⟩
    · exact absurd h1 (by linarith)
    · exact absurd h1 (by linarith)
  · by_cases h2 : xpos - paddle.size.x / 2 + paddle.size.x > WINDOW_W
    · have e : updatePaddle xpos paddle =
          { paddle with pos := ⟨WINDOW_W - paddle.size.x, paddle.pos.y⟩ } := by
        simp only [updatePaddle, h1, if_false, h2, if_true]
      rw [e]
      refine ⟨rfl, rfl, fun h3 => absurd h3 h1, fun _ => rfl, fun _ h3 => ?_⟩
      exact absurd h2 (by linarith)
    · have e : updatePaddle xpos paddle =
          { paddle with pos := ⟨xpos - paddle.size.x / 2, paddle.pos.y⟩ } := by
        simp only [updatePaddle, h1, if_false, h2]
      rw [e]
      refine ⟨rfl, rfl, fun h3 => absurd h3 h1, fun h3 => ?_, fun _ _ => rfl⟩
      exact absurd h3 (by linarith)

/-- C10: for every pointer X and every paddle with width at most the screen
width, after the paddle update the paddle's X is the requested left edge
(pointer X minus half the width) clamped into `[0, WINDOW_W - width]`: a
request outside the interval yields the nearest boundary, a request inside is
kept, and the paddle lies within `[0, WINDOW_W]`. -/
theorem updatePaddle_clamped (xpos : ℚ) (paddle : Paddle) (h : paddle.size.x ≤ WINDOW_W) :
    (updatePaddle xpos paddle).pos.x =
      max 0 (min (xpos - paddle.size.x / 2) (WINDOW_W - paddle.size.x)) ∧
    (updatePaddle xpos paddle).size = paddle.size ∧
    0 ≤ (updatePaddle xpos paddle).pos.x ∧
    (updatePaddle xpos paddle).pos.x + (updatePaddle xpos paddle).size.x ≤ WINDOW_W ∧
    (xpos - paddle.size.x / 2 < 0 → (updatePaddle xpos paddle).pos.x = 0) ∧
    (WINDOW_W - paddle.size.x < xpos - paddle.size.x / 2 →
      (updatePaddle xpos paddle).pos.x = WINDOW_W - paddle.size.x) ∧
    (0 ≤ xpos - paddle.size.x / 2 → xpos - paddle.size.x / 2 ≤ WINDOW_W - paddle.size.x →
      (updatePaddle xpos paddle).pos.x = xpos - paddle.size.x / 2) := by
  obtain ⟨hs, _, hlo, hhi, hmid⟩ := updatePaddle_cases xpos paddle h
  have hpos : (updatePaddle xpos paddle).pos.x =
      max 0 (min (xpos - paddle.size.x / 2) (WINDOW_W - paddle.size.x)) := by
    rcases lt_or_le (xpos - paddle.size.x / 2) 0 with h1 | h1
    · rw [hlo h1, max_eq_left (le_trans (min_le_left _ _) (le_of_lt h1))]
    · rcases lt_or_le (WINDOW_W - paddle.size.x) (xpos - paddle.size.x / 2) with h2 | h2
      · rw [hhi h2, min_eq_right (le_of_lt h2), max_eq_right (by linarith)]
      · rw [hmid h1 h2, min_eq_left h2, max_eq_right h1]
  have hw : (0 : ℚ) ≤ WINDOW_W - paddle.size.x := by linarith
  refine ⟨hpos, hs, ?_, ?_, hlo, hhi, hmid⟩
  · rw [hpos]; exact le_max_left _ _
  · rw [hpos, hs]
    have : max 0 (min (xpos - paddle.size.x / 2) (WINDOW_W - paddle.size.x))
        ≤ WINDOW_W - paddle.size.x := max_le hw (min_le_right _ _)
    linarith

/-- Witness for C10: the sample paddle with the pointer right of the screen,
left of it, and at its centre. -/
theorem updatePaddle_clamped_witness :
    samplePaddle.size.x ≤ WINDOW_W ∧
    (updatePaddle 1000 samplePaddle).pos.x = 680 ∧
    (updatePaddle (-5) samplePaddle).pos.x = 0 ∧
    (updatePaddle 400 samplePaddle).pos.x = 340 :=
  ⟨by norm_num [samplePaddle, WINDOW_W],
   by rw [(updatePaddle_clamped 1000 samplePaddle (by norm_num [samplePaddle, WINDOW_W])).1]
      norm_num [samplePaddle, WINDOW_W],
   by rw [(updatePaddle_clamped (-5) samplePaddle (by norm_num [samplePaddle, WINDOW_W])).1]
      norm_num [samplePaddle, WINDOW_W],
   by rw [(updatePaddle_clamped 400 samplePaddle (by norm_num [samplePaddle, WINDOW_W])).1]
      norm_num [samplePaddle, WINDOW_W]⟩

/-! ## Order of ball-loss resolution and power-up collection -/

/-- A non-terminal step, phase by phase. -/
theorem step_phases (env : Env) (dt xpos : ℚ) (g : Game)
    (hg : g.gameOver = false) (hw : g.youWin = false) :
    step env dt xpos g =
      { paddle := updatePaddle xpos g.paddle
        balls := (collectLoop env (updatePaddle xpos g.paddle)
          (afterBallLoop env dt xpos g).powerUps (afterLoss env dt xpos g).1
          (afterLoss env dt xpos g).2.1 (afterBallLoop env dt xpos g).randCalls).balls
        bricks := (afterBallLoop env dt xpos g).bricks
        powerUps := (collectLoop env (updatePaddle xpos g.paddle)
          (afterBallLoop env dt xpos g).powerUps (afterLoss env dt xpos g).1
          (afterLoss env dt xpos g).2.1 (afterBallLoop env dt xpos g).randCalls).powerUps
        lives := (collectLoop env (updatePaddle xpos g.paddle)
          (afterBallLoop env dt xpos g).powerUps (afterLoss env dt xpos g).1
          (afterLoss env dt xpos g).2.1 (afterBallLoop env dt xpos g).randCalls).lives
        gameOver := (afterLoss env dt xpos g).2.2
        youWin := allDestroyed (afterBallLoop env dt xpos g).bricks
        randCalls := (collectLoop env (updatePaddle xpos g.paddle)
          (afterBallLoop env dt xpos g).powerUps (afterLoss env dt xpos g).1
          (afterLoss env dt xpos g).2.1 (afterBallLoop env dt xpos g).randCalls).randCalls } := by
  simp only [step, hg, hw, Bool.not_false, Bool.and_self, if_true, afterLoss, afterBallLoop]
  cases allDestroyed (ballLoop env dt (updatePaddle xpos g.paddle) g.balls g.bricks
      (List.filter (fun pu => pu.active) (List.map (movePowerUp dt) g.powerUps))
      g.randCalls).bricks <;> simp

/-- When ball-loss resolution sets `gameOver`. -/
theorem resolveLoss_gameOver (env : Env) (ballLost : Bool) (balls : List Ball) (lives : Int) :
    (resolveLoss env ballLost balls lives false).2.2 = true ↔
      ballLost = true ∧ balls.filter (fun b => !ballBelow b) = [] ∧ lives ≤ 1 := by
  unfold resolveLoss
  cases ballLost
  · simp
  · by_cases he : (balls.filter fun b => !ballBelow b) = []
    · by_cases hl : lives - 1 ≤ 0
      · simp [he, hl]; omega
      · simp [he, hl]; omega
    · have : (balls.filter fun b => !ballBelow b).isEmpty = false := by
        cases h : balls.filter fun b => !ballBelow b
        · exact absurd h he
        · rfl
      simp [he, this]

/-- When no ball is lost in the frame, the order of power-up collection and
ball-loss resolution does not matter. -/
theorem stepSpecOrder_eq_of_not_lost (env : Env) (dt xpos : ℚ) (g : Game)
    (h : (afterBallLoop env dt xpos g).ballLost = false) :
    stepSpecOrder env dt xpos g = step env dt xpos g := by
  unfold afterBallLoop at h
  simp only [stepSpecOrder, step, resolveLoss, h, Bool.false_eq_true, if_false]

/-- C11 (amended): the step resolves ball loss before it collects power-ups.
In a non-terminal state the `gameOver` flag after one step is the one decided
by ball-loss resolution on the lives held before any power-up of this frame
is collected, and lives and balls are those obtained by collecting the
power-ups after that resolution. The order of the specification gives the
same state whenever no ball is lost in the frame. `gameOver` is set exactly
when a ball was lost, no ball remains after the removal, and `lives` was at
most 1 at the start of the step. -/
theorem step_loss_then_collect (env : Env) (dt xpos : ℚ) (g : Game)
    (hg : g.gameOver = false) (hw : g.youWin = false) :
    (step env dt xpos g).gameOver = (afterLoss env dt xpos g).2.2 ∧
    (step env dt xpos g).lives =
      (collectLoop env (updatePaddle xpos g.paddle) (afterBallLoop env dt xpos g).powerUps
        (afterLoss env dt xpos g).1 (afterLoss env dt xpos g).2.1
        (afterBallLoop env dt xpos g).randCalls).lives ∧
    (step env dt xpos g).balls =
      (collectLoop env (updatePaddle xpos g.paddle) (afterBallLoop env dt xpos g).powerUps
        (afterLoss env dt xpos g).1 (afterLoss env dt xpos g).2.1
        (afterBallLoop env dt xpos g).randCalls).balls ∧
    ((afterBallLoop env dt xpos g).ballLost = false →
      stepSpecOrder env dt xpos g = step env dt xpos g) ∧
    ((step env dt xpos g).gameOver = true ↔
      (afterBallLoop env dt xpos g).ballLost = true ∧
      (afterBallLoop env dt xpos g).balls.filter (fun b => !ballBelow b) = [] ∧
      g.lives ≤ 1) := by
  refine ⟨?_, ?_, ?_, stepSpecOrder_eq_of_not_lost env dt xpos g, ?_⟩
  · rw [step_phases env dt xpos g hg hw]
  · rw [step_phases env dt xpos g hg hw]
  · rw [step_phases env dt xpos g hg hw]
  · rw [step_phases env dt xpos g hg hw]
    simp only [afterLoss, hg]
    exact resolveLoss_gameOver env _ _ _

/-- Witness for C11: in `lastBrickGame` no ball is lost, and the step in the
order of the specification gives the state of the step. -/
theorem step_loss_then_collect_witness :
    lastBrickGame.gameOver = false ∧ lastBrickGame.youWin = false ∧
    stepSpecOrder sampleEnv (1/20) 400 lastBrickGame = step sampleEnv (1/20) 400 lastBrickGame :=
  ⟨rfl, rfl,
   (step_loss_then_collect sampleEnv (1/20) 400 lastBrickGame rfl rfl).2.2.2.1 (by
      simp [afterBallLoop, lastBrickGame, ballLoop, brickScan, integrateBall, wallCollide,
        ballBelow, paddleCollide, AABBvsCircle, updatePaddle, samplePaddle, sampleEnv,
        WINDOW_W, WINDOW_H]
      norm_num)⟩

/-- Counterexample for C11 as stated: `extraLifeGame` has `lives = 1`, its only
ball crosses the bottom and an active EXTRALIFE power-up overlaps the paddle
in the same frame. The step ends the game with one life left and no ball,
while the order of the specification keeps the game running with a fresh
ball. -/
theorem step_differs_from_spec_order :
    (step sampleEnv (1/20) 400 extraLifeGame).gameOver = true ∧
    (step sampleEnv (1/20) 400 extraLifeGame).lives = 1 ∧
    (step sampleEnv (1/20) 400 extraLifeGame).balls = [] ∧
    (stepSpecOrder sampleEnv (1/20) 400 extraLifeGame).gameOver = false ∧
    (stepSpecOrder sampleEnv (1/20) 400 extraLifeGame).lives = 1 ∧
    (stepSpecOrder sampleEnv (1/20) 400 extraLifeGame).balls = [freshBall sampleEnv] := by
  have hcode : ∀ lives : Int,
      (collectLoop sampleEnv { pos := ⟨340, 50⟩, size := ⟨120, 20⟩, tex := 2 }
        [{ pos := ⟨390, 55⟩, vel := ⟨0, -100⟩, size := ⟨30, 30⟩,
           type := PowerUpType.EXTRALIFE, active := true, tex := 4 }] [] lives 0).lives
        = lives + 1 ∧
      (collectLoop sampleEnv { pos := ⟨340, 50⟩, size := ⟨120, 20⟩, tex := 2 }
        [{ pos := ⟨390, 55⟩, vel := ⟨0, -100⟩, size := ⟨30, 30⟩,
           type := PowerUpType.EXTRALIFE, active := true, tex := 4 }] [] lives 0).balls
        = [] := by
    intro lives
    rw [collectLoop]
    simp [collectLoop, puOverlapsPaddle]
    norm_num
  have hspec : ∀ (lives : Int) (b : Ball),
      (collectLoop sampleEnv { pos := ⟨340, 50⟩, size := ⟨120, 20⟩, tex := 2 }
        [{ pos := ⟨390, 55⟩, vel := ⟨0, -100⟩, size := ⟨30, 30⟩,
           type := PowerUpType.EXTRALIFE, active := true, tex := 4 }] [b] lives 0).lives
        = lives + 1 ∧
      (collectLoop sampleEnv { pos := ⟨340, 50⟩, size := ⟨120, 20⟩, tex := 2 }
        [{ pos := ⟨390, 55⟩, vel := ⟨0, -100⟩, size := ⟨30, 30⟩,
           type := PowerUpType.EXTRALIFE, active := true, tex := 4 }] [b] lives 0).balls
        = [b] := by
    intro lives b
    rw [collectLoop]
    simp [collectLoop, puOverlapsPaddle]
    norm_num
  refine ⟨?_, ?_, ?_, ?_, ?_, ?_⟩
  · simp [step, extraLifeGame, ballLoop, integrateBall, wallCollide, ballBelow,
      updatePaddle, samplePaddle, WINDOW_W, WINDOW_H, resolveLoss, movePowerUp]
    norm_num
  · simp [step, extraLifeGame, ballLoop, integrateBall, wallCollide, ballBelow,
      updatePaddle, samplePaddle, WINDOW_W, WINDOW_H, resolveLoss, movePowerUp]
    norm_num
    rw [(hcode _).1]; norm_num
  · simp [step, extraLifeGame, ballLoop, integrateBall, wallCollide, ballBelow,
      updatePaddle, samplePaddle, WINDOW_W, WINDOW_H, resolveLoss, movePowerUp]
    norm_num
    rw [(hcode _).2]
  · simp [stepSpecOrder, extraLifeGame, ballLoop, integrateBall, wallCollide, ballBelow,
      updatePaddle, samplePaddle, WINDOW_W, WINDOW_H, resolveLoss, movePowerUp]
    norm_num
    rw [(hspec _ _).1, (hspec _ _).2]
    norm_num [freshBall, WINDOW_W, sampleEnv]
  · simp [stepSpecOrder, extraLifeGame, ballLoop, integrateBall, wallCollide, ballBelow,
      updatePaddle, samplePaddle, WINDOW_W, WINDOW_H, resolveLoss, movePowerUp]
    norm_num
    rw [(hspec _ _).1, (hspec _ _).2]
    norm_num [freshBall, WINDOW_W, sampleEnv]
  · simp [stepSpecOrder, extraLifeGame, ballLoop, integrateBall, wallCollide, ballBelow,
      updatePaddle, samplePaddle, WINDOW_W, WINDOW_H, resolveLoss, movePowerUp]
    norm_num
    rw [(hspec _ _).1, (hspec _ _).2]
    norm_num [freshBall, WINDOW_W, sampleEnv]

/-! ## The lost ball and the balls after it -/

/-- When a ball crosses the bottom the per-ball loop stops: the balls after
it are returned as they were. -/
theorem ballLoop_break (env : Env) (dt : ℚ) (paddle : Paddle) (b : Ball) (rest : List Ball)
    (bricks : List Brick) (pus : List PowerUp) (n : Nat)
    (h : ballBelow (wallCollide (integrateBall dt b)) = true) :
    ballLoop env dt paddle (b :: rest) bricks pus n
      = ⟨wallCollide (integrateBall dt b) :: rest, bricks, pus, n, true⟩ := by
  rw [ballLoop]
  simp only [h, if_true]

/-- C12 at the failing input: in `twoBallGame` the first ball crosses the
bottom, and the step returns `laterBall` exactly as it was, although its
velocity is not zero and integration with wall handling would move it to
`(205, 305)`. -/
theorem later_ball_not_advanced :
    (step sampleEnv (1/20) 400 twoBallGame).balls = [laterBall] ∧
    laterBall.pos = ⟨200, 300⟩ ∧
    (wallCollide (integrateBall (1/20) laterBall)).pos = ⟨205, 305⟩ := by
  refine ⟨?_, rfl, ?_⟩
  · simp [step, twoBallGame, ballLoop, integrateBall, wallCollide, ballBelow,
      updatePaddle, samplePaddle, WINDOW_W, WINDOW_H, resolveLoss, laterBall]
    norm_num
    rw [collectLoop]
  · simp [integrateBall, wallCollide, laterBall, WINDOW_W, WINDOW_H]
    norm_num

/-! ## Power-up spawn -/

/-- The scan at its first alive overlapping brick. -/
theorem brickScan_hit (env : Env) (ball : Ball) (pus : List PowerUp) (n : Nat) (b : Brick)
    (post : List Brick) (ha : b.alive = true) (ho : overlaps ball b = true) :
    ∀ pre : List Brick, (∀ b1 ∈ pre, ¬ (b1.alive = true ∧ overlaps ball b1 = true)) →
    (brickScan env ball pus n (pre ++ b :: post)).powerUps =
      if env.rand n % 100 < 30 then
        pus ++ [spawnPowerUp env { b with alive := false } (env.rand (n + 1))]
      else pus := by
  intro pre
  induction pre with
  | nil =>
    intro _
    have hh : (AABBvsCircle b.s.pos b.s.size ball.pos ball.radius).1 = true := ho
    rw [List.nil_append, brickScan]
    by_cases hr : env.rand n % 100 < 30
    · simp only [ha, hh, hr, Bool.not_true, Bool.false_eq_true, if_false, if_true]
    · simp only [ha, hh, hr, Bool.not_true, Bool.false_eq_true, if_false, if_true]
  | cons p ps ih =>
    intro hpre
    have ih1 := ih fun b1 hb1 => hpre b1 (List.mem_cons_of_mem _ hb1)
    have hp := hpre p (List.mem_cons_self _ _)
    rw [List.cons_append, brickScan]
    by_cases hpa : p.alive = true
    · have hh : (AABBvsCircle p.s.pos p.s.size ball.pos ball.radius).1 = false := by
        by_contra hc
        exact hp ⟨hpa, by simpa [overlaps] using hc⟩
      simp only [hpa, hh, Bool.not_true, Bool.false_eq_true, if_false]
      exact ih1
    · have hpa1 : p.alive = false := by simpa using hpa
      simp only [hpa1, Bool.not_false, if_true]
      exact ih1

/-- C13 (amended): whenever a brick destruction spawns a power-up (the roll
modulo 100 is below 30), exactly one power-up is appended; it is active,
moves straight down (velocity x = 0, y < 0) and is placed at
`x = brick.x + brick.width / 2`, `y = brick.y`, the centre of the bottom edge
of the destroyed brick in the y-up coordinates of the simulation. -/
theorem spawned_powerUp_spec (env : Env) (ball : Ball) (pus : List PowerUp) (n : Nat)
    (pre : List Brick) (b : Brick) (post : List Brick)
    (hpre : ∀ b1 ∈ pre, ¬ (b1.alive = true ∧ overlaps ball b1 = true))
    (ha : b.alive = true) (ho : overlaps ball b = true)
    (hroll : env.rand n % 100 < 30) :
    ∃ pu, (brickScan env ball pus n (pre ++ b :: post)).powerUps = pus ++ [pu] ∧
      pu.active = true ∧ pu.vel.x = 0 ∧ pu.vel.y < 0 ∧
      pu.pos.x = b.s.pos.x + b.s.size.x / 2 ∧ pu.pos.y = b.s.pos.y := by
  refine ⟨spawnPowerUp env { b with alive := false } (env.rand (n + 1)), ?_, rfl, rfl, ?_, ?_, rfl⟩
  · rw [brickScan_hit env ball pus n b post ha ho pre hpre, if_pos hroll]
  · show (-100 : ℚ) < 0
    norm_num
  · show b.s.pos.x + b.s.size.x * (1 / 2) = b.s.pos.x + b.s.size.x / 2
    ring

/-- Witness for C13: `sampleBall` hits `aliveBrick` with the rolls of
`spawnEnv`. -/
theorem spawned_powerUp_spec_witness :
    ∃ pu, (brickScan spawnEnv sampleBall [] 0 ([] ++ aliveBrick :: [])).powerUps = [] ++ [pu] ∧
      pu.active = true ∧ pu.vel.x = 0 ∧ pu.vel.y < 0 ∧
      pu.pos.x = aliveBrick.s.pos.x + aliveBrick.s.size.x / 2 ∧
      pu.pos.y = aliveBrick.s.pos.y :=
  spawned_powerUp_spec spawnEnv sampleBall [] 0 [] aliveBrick []
    (fun _ h => absurd h (List.not_mem_nil _)) rfl
    (by simp [overlaps, AABBvsCircle, sampleBall, aliveBrick]; norm_num)
    (by simp [spawnEnv])

/-- Counterexample for C13 as stated: `sampleBall` destroys `aliveBrick`, whose
box is `[0,100] x [500,530]`, with the spawn roll 7. The power-up is placed at
`(50, 500)`: its y is the brick's y, not the brick's y plus its height. -/
theorem spawn_not_at_top :
    overlaps sampleBall aliveBrick = true ∧
    spawnEnv.rand 0 % 100 < 30 ∧
    (brickScan spawnEnv sampleBall [] 0 [aliveBrick]).powerUps =
      [{ pos := ⟨50, 500⟩, vel := ⟨0, -100⟩, size := ⟨30, 30⟩,
         type := PowerUpType.EXTRALIFE, active := true, tex := 4 }] ∧
    (500 : ℚ) = aliveBrick.s.pos.y ∧
    (500 : ℚ) ≠ aliveBrick.s.pos.y + aliveBrick.s.size.y := by
  refine ⟨?_, ?_, ?_, rfl, ?_⟩
  · simp [overlaps, AABBvsCircle, sampleBall, aliveBrick]; norm_num
  · simp [spawnEnv]
  · simp [brickScan, AABBvsCircle, sampleBall, aliveBrick, spawnEnv, spawnPowerUp, sampleEnv]
    norm_num
  · norm_num [aliveBrick]

/-! ## The end flags along a run -/

/-- After a non-terminal step `youWin` says that every brick is dead. -/
theorem step_youWin_iff_aux (env : Env) (dt xpos : ℚ) (g : Game)
    (hg : g.gameOver = false) (hw : g.youWin = false) :
    (step env dt xpos g).youWin = true ↔
      ∀ b ∈ (step env dt xpos g).bricks, b.alive = false := by
  rw [← allDestroyed_iff]
  simp only [step, hg, hw, Bool.not_false, Bool.and_self, if_true]
  by_cases h : allDestroyed (ballLoop env dt (updatePaddle xpos g.paddle) g.balls g.bricks
      (List.filter (fun pu => pu.active) (List.map (movePowerUp dt) g.powerUps)) g.randCalls).bricks
        = true
  · simp [h]
  · simp [h]

/-- The brick scan moves no ball: position and radius are kept. -/
theorem brickScan_ball_geom (env : Env) (ball : Ball) (pus : List PowerUp) (n : Nat) :
    ∀ bricks : List Brick,
      (brickScan env ball pus n bricks).ball.pos = ball.pos ∧
      (brickScan env ball pus n bricks).ball.radius = ball.radius := by
  intro bricks
  induction bricks with
  | nil => exact ⟨rfl, rfl⟩
  | cons b bs ih =>
    rw [brickScan]
    by_cases ha : b.alive = true
    · by_cases hh : (AABBvsCircle b.s.pos b.s.size ball.pos ball.radius).1 = true
      · have hb : (brickBounce ball (AABBvsCircle b.s.pos b.s.size ball.pos ball.radius).2).pos
            = ball.pos ∧
            (brickBounce ball (AABBvsCircle b.s.pos b.s.size ball.pos ball.radius).2).radius
            = ball.radius := by
          simp only [brickBounce]
          split_ifs <;> exact ⟨rfl, rfl⟩
        by_cases hr : env.rand n % 100 < 30
        · simp only [ha, hh, hr, Bool.not_true, Bool.false_eq_true, if_false, if_true]
          exact hb
        · simp only [ha, hh, hr, Bool.not_true, Bool.false_eq_true, if_false, if_true]
          exact hb
      · simp only [ha, hh, Bool.not_true, Bool.false_eq_true, if_false]
        exact ih
    · have ha1 : b.alive = false := by simpa using ha
      simp only [ha1, Bool.not_false, if_true]
      exact ih

/-- The paddle collision moves no ball. -/
theorem paddleCollide_geom (paddle : Paddle) (ball : Ball) :
    (paddleCollide paddle ball).pos = ball.pos ∧
    (paddleCollide paddle ball).radius = ball.radius := by
  unfold paddleCollide
  split_ifs <;> exact ⟨rfl, rfl⟩

/-- The bottom test reads position and radius only. -/
theorem ballBelow_congr (a b : Ball) (hp : a.pos = b.pos) (hr : a.radius = b.radius) :
    ballBelow a = ballBelow b := by
  unfold ballBelow
  rw [hp, hr]

/-- If the per-ball loop reports a lost ball and every ball it returns is
below the bottom, the loop stopped at its first ball: no brick was scanned. -/
theorem ballLoop_emptied (env : Env) (dt : ℚ) (paddle : Paddle) (balls : List Ball)
    (bricks : List Brick) (pus : List PowerUp) (n : Nat)
    (hlost : (ballLoop env dt paddle balls bricks pus n).ballLost = true)
    (hempty : (ballLoop env dt paddle balls bricks pus n).balls.filter
      (fun b => !ballBelow b) = []) :
    (ballLoop env dt paddle balls bricks pus n).bricks = bricks := by
  cases balls with
  | nil => rfl
  | cons ball rest =>
    rw [ballLoop] at hlost hempty ⊢
    by_cases hb : ballBelow (wallCollide (integrateBall dt ball)) = true
    · simp only [hb, if_true]
    · exfalso
      simp only [hb, Bool.false_eq_true, if_false] at hempty
      have hgeom := brickScan_ball_geom env
        (paddleCollide paddle (wallCollide (integrateBall dt ball))) pus n bricks
      have hpad := paddleCollide_geom paddle (wallCollide (integrateBall dt ball))
      have hsame : ballBelow (brickScan env
          (paddleCollide paddle (wallCollide (integrateBall dt ball))) pus n bricks).ball
          = ballBelow (wallCollide (integrateBall dt ball)) :=
        ballBelow_congr _ _ (hgeom.1.trans hpad.1) (hgeom.2.trans hpad.2)
      have hnb : ballBelow (brickScan env
          (paddleCollide paddle (wallCollide (integrateBall dt ball))) pus n bricks).ball
          = false := by
        rw [hsame]; simpa using hb
      rw [List.filter_cons_of_pos (by simp [hnb])] at hempty
      exact List.cons_ne_nil _ _ hempty

/-- A step that sets `gameOver` destroys no brick. -/
theorem step_gameOver_bricks (env : Env) (dt xpos : ℚ) (g : Game)
    (hg : g.gameOver = false) (hw : g.youWin = false)
    (hover : (step env dt xpos g).gameOver = true) :
    (step env dt xpos g).bricks = g.bricks := by
  have hb : (step env dt xpos g).bricks = (ballLoop env dt (updatePaddle xpos g.paddle)
      g.balls g.bricks ((g.powerUps.map (movePowerUp dt)).filter fun pu => pu.active)
      g.randCalls).bricks := by
    simp only [step, hg, hw, Bool.not_false, Bool.and_self, if_true]
  have ho : (resolveLoss env (ballLoop env dt (updatePaddle xpos g.paddle)
      g.balls g.bricks ((g.powerUps.map (movePowerUp dt)).filter fun pu => pu.active)
      g.randCalls).ballLost (ballLoop env dt (updatePaddle xpos g.paddle)
      g.balls g.bricks ((g.powerUps.map (movePowerUp dt)).filter fun pu => pu.active)
      g.randCalls).balls g.lives false).2.2 = true := by
    simpa only [step, hg, hw, Bool.not_false, Bool.and_self, if_true] using hover
  obtain ⟨hlost, hempty, _⟩ := (resolveLoss_gameOver env _ _ _).mp ho
  rw [hb]
  exact ballLoop_emptied env dt _ _ _ _ _ hlost hempty

/-- The invariant of a run: the two end flags are not both set, and while
`youWin` is not set some brick is alive. -/
theorem step_invariant (env : Env) (dt xpos : ℚ) (g : Game)
    (hinv : ¬ (g.gameOver = true ∧ g.youWin = true) ∧
      (g.youWin = false → ∃ b ∈ g.bricks, b.alive = true)) :
    ¬ ((step env dt xpos g).gameOver = true ∧ (step env dt xpos g).youWin = true) ∧
    ((step env dt xpos g).youWin = false → ∃ b ∈ (step env dt xpos g).bricks, b.alive = true) := by
  by_cases ht : g.gameOver = true ∨ g.youWin = true
  · rw [step_terminal env dt xpos g ht]
    exact hinv
  · have hg : g.gameOver = false := by
      cases h : g.gameOver
      · rfl
      · exact absurd (Or.inl h) ht
    have hw : g.youWin = false := by
      cases h : g.youWin
      · rfl
      · exact absurd (Or.inr h) ht
    have hiff := step_youWin_iff_aux env dt xpos g hg hw
    constructor
    · rintro ⟨hover, hwin⟩
      obtain ⟨b, hb, hba⟩ := hinv.2 hw
      rw [← step_gameOver_bricks env dt xpos g hg hw hover] at hb
      have := hiff.mp hwin b hb
      rw [hba] at this
      exact Bool.noConfusion this
    · intro hnw
      by_contra hnone
      have hall : ∀ b ∈ (step env dt xpos g).bricks, b.alive = false := by
        intro b hb
        cases hba : b.alive
        · rfl
        · exact absurd ⟨b, hb, hba⟩ hnone
      have := hiff.mpr hall
      rw [hnw] at this
      exact Bool.noConfusion this

/-- The invariant holds along every run. -/
theorem run_invariant (env : Env) (inputs : List (ℚ × ℚ)) :
    ∀ g : Game,
      (¬ (g.gameOver = true ∧ g.youWin = true) ∧
        (g.youWin = false → ∃ b ∈ g.bricks, b.alive = true)) →
      ¬ ((run env inputs g).gameOver = true ∧ (run env inputs g).youWin = true) ∧
      ((run env inputs g).youWin = false → ∃ b ∈ (run env inputs g).bricks, b.alive = true) := by
  induction inputs with
  | nil => intro g h; exact h
  | cons i rest ih =>
    intro g h
    obtain ⟨dt, xpos⟩ := i
    rw [run]
    exact ih _ (step_invariant env dt xpos g h)

/-- C14: `gameOver` and `youWin` are never both true. In every state reached
by simulation steps (any frames, any random draws) from an initial state with
`gameOver` false and at least one alive brick, whatever `youWin` and the balls
are, at most one of the two flags is true; the reason is that a step which
sets `gameOver` stopped at its first ball and destroyed no brick. -/
theorem flags_exclusive (env : Env) (inputs : List (ℚ × ℚ)) (g0 : Game)
    (hg : g0.gameOver = false)
    (hbrick : ∃ b ∈ g0.bricks, b.alive = true) :
    ¬ ((run env inputs g0).gameOver = true ∧ (run env inputs g0).youWin = true) ∧
    (∀ (dt xpos : ℚ) (g : Game), g.gameOver = false → g.youWin = false →
      (step env dt xpos g).gameOver = true → (step env dt xpos g).bricks = g.bricks) :=
  ⟨(run_invariant env inputs g0 ⟨fun h => by rw [hg] at h; exact Bool.noConfusion h.1,
      fun _ => hbrick⟩).1,
   fun dt xpos g => step_gameOver_bricks env dt xpos g⟩

/-- Witness for C14: two frames from `lastBrickGame`; the first destroys the
last brick and sets `youWin`, and `gameOver` stays false. -/
theorem flags_exclusive_witness :
    lastBrickGame.gameOver = false ∧ lastBrickGame.youWin = false ∧
    (∃ b ∈ lastBrickGame.bricks, b.alive = true) ∧ lastBrickGame.balls ≠ [] ∧
    ¬ ((run sampleEnv [(1/20, 400), (1/20, 400)] lastBrickGame).gameOver = true ∧
       (run sampleEnv [(1/20, 400), (1/20, 400)] lastBrickGame).youWin = true) :=
  ⟨rfl, rfl, ⟨_, List.mem_singleton.mpr rfl, rfl⟩, List.cons_ne_nil _ _,
   (flags_exclusive sampleEnv [(1/20, 400), (1/20, 400)] lastBrickGame rfl
      ⟨_, List.mem_singleton.mpr rfl, rfl⟩).1⟩

end Arkanoid
